import Mathlib

/-!
Verification of the recurring channel-posting scheduler in `bot.py`.

The Python source is embedded shallowly: the application job queue is a list
of pending one-shot jobs, the per-tenant `user_data['channels']` dict is an
insertion-ordered association list, delays and intervals are rationals, and
the external collaborators (the Gemini content generator and the Telegram
transport) enter each cycle as explicit outcome values.
-/

namespace ChannelBot

/-- Configuration stored under `user_data['channels'][channel_id]`
(bot.py lines 320-322). -/
structure ChannelConfig where
  topic : String
  base_seconds : ℚ
  random_seconds : ℚ
  deriving DecidableEq

/-- The `user_data['channels']` dict: insertion-ordered map from channel id
to its configuration. -/
abbrev Channels := List (String × ChannelConfig)

/-- Payload stored in `job.data` when a post job is created
(bot.py lines 208-211). -/
structure JobData where
  channel_id : String
  topic : String
  base_seconds : ℚ
  random_seconds : ℚ
  deriving DecidableEq

/-- One pending `run_once` job in the application job queue. -/
structure Job where
  name : String
  when : ℚ
  data : JobData
  chat_id : Int
  deriving DecidableEq

/-- The application job queue: all currently armed one-shot timers. -/
abbrev JobQueue := List Job

/-- `channel_id.replace('@', '')`: removes every `@` character. -/
def stripAt (s : String) : String := ⟨s.data.filter (fun c => c != '@')⟩

/-- The job key `f"post_job_\x7bchat_id\x7d_\x7bchannel_id.replace('@','')\x7d"`
(bot.py lines 206 and 343). -/
def job_name_for (chat_id : Int) (channel_id : String) : String :=
  "post_job_" ++ toString chat_id ++ "_" ++ stripAt channel_id

/-- `context.job_queue.get_jobs_by_name(name)`. -/
def get_jobs_by_name (q : JobQueue) (name : String) : List Job :=
  q.filter (fun j => j.name == name)

/-- bot.py lines 217-223: cancel every pending job carrying this name and
report whether any existed. -/
def remove_job_if_exists (name : String) (q : JobQueue) : Bool × JobQueue :=
  if (get_jobs_by_name q name).isEmpty then (false, q)
  else (true, q.filter (fun j => !(j.name == name)))

/-- `context.job_queue.run_once(...)`: installs one more pending job. -/
def run_once (q : JobQueue) (j : Job) : JobQueue := q ++ [j]

/-- bot.py lines 205-215: cancel any job under the key, then arm the first
job with the fixed warm-up delay `when=10`. -/
def schedule_first_job_for_channel (q : JobQueue) (chat_id : Int)
    (channel_id topic : String) (base_seconds random_seconds : ℚ) : JobQueue :=
  let job_name := job_name_for chat_id channel_id
  run_once (remove_job_if_exists job_name q).2
    ⟨job_name, 10, ⟨channel_id, topic, base_seconds, random_seconds⟩, chat_id⟩

/-- bot.py line 198: `delay = base_seconds + random.uniform(-random_seconds,
random_seconds)`, with `u` the sampled jitter value. -/
def jittered_delay (base_seconds u : ℚ) : ℚ := base_seconds + u

/-- bot.py line 199: `next_run_time = max(60, delay)`. -/
def next_run_time (delay : ℚ) : ℚ := max 60 delay

/-- Outcome of the Gemini call inside `generate_ai_content`: either the
generated text or the message of a raised exception. -/
abbrev GenOutcome := Except String String

/-- bot.py line 149. -/
def empty_topic_text : String := "Error: Topic is empty."

/-- bot.py line 161: the fallback apology text returned when the generator
raises (punctuation rendered in plain ASCII). -/
def fallback_text (topic : String) : String :=
  "Sorry, I could not generate a post about " ++ topic ++ ". Please try again."

/-- bot.py lines 146-161: an empty topic short-circuits to a fixed error
string without consulting the generator; a generator exception is caught and
replaced by the fallback text; otherwise the generated text is returned. -/
def generate_ai_content (topic : String) (gen : GenOutcome) : String :=
  if topic = "" then empty_topic_text
  else
    match gen with
    | Except.ok text => text
    | Except.error _ => fallback_text topic

/-- Outcome of `bot.send_message` to the channel.  The `transient` flag
records the transport taxonomy of the design (a failure is recoverable or
not); bot.py lines 187 catch every `TelegramError`/`BadRequest` alike,
ignoring this distinction. -/
inductive SendOutcome where
  | success : SendOutcome
  | telegramError (transient : Bool) (reason : String) : SendOutcome
  deriving DecidableEq

/-- bot.py line 192: the notification text sent to the tenant chat after a
delivery failure (rendered in plain ASCII). -/
def failure_notice (channel_id reason : String) : String :=
  "Warning: I could not post to " ++ channel_id ++ " (Reason: " ++ reason ++
  "). The schedule for this channel has been stopped. Please check my admin permissions and re-add the channel."

/-- Result of one fire cycle: the queue and channels map afterwards, the
notifications sent to tenant chats, and the posts delivered to channels. -/
structure FireResult where
  queue : JobQueue
  channels : Channels
  notifications : List (Int × String)
  sent : List (String × String)
  deriving DecidableEq

/-- bot.py lines 176-203: one fire cycle of `post_to_channel`.  The fired
job `j` has already been consumed from the queue, leaving `q`; `gen` is the
generator outcome, `send` the transport outcome of the single `send_message`
to the channel, and `u` the value drawn by
`random.uniform(-random_seconds, random_seconds)`.  On a transport error the
job is removed, the tenant is notified and the record is deleted; on success
the job is re-armed at the clamped jittered delay. -/
def post_to_channel (j : Job) (q : JobQueue) (channels : Channels)
    (gen : GenOutcome) (send : SendOutcome) (u : ℚ) : FireResult :=
  let content := generate_ai_content j.data.topic gen
  match send with
  | SendOutcome.telegramError _ reason =>
      ⟨(remove_job_if_exists j.name q).2,
       channels.filter (fun p => !(p.1 == j.data.channel_id)),
       [(j.chat_id, failure_notice j.data.channel_id reason)],
       []⟩
  | SendOutcome.success =>
      ⟨run_once q ⟨j.name, next_run_time (jittered_delay j.data.base_seconds u),
         j.data, j.chat_id⟩,
       channels, [], [(j.data.channel_id, content)]⟩

/-- `user_data['channels'].get(cid)` on the association list. -/
def lookupChannel (channels : Channels) (cid : String) : Option ChannelConfig :=
  (channels.find? (fun p => p.1 == cid)).map Prod.snd

/-- Python dict assignment `channels[cid] = cfg`: update in place if the key
exists (keeping its position), append otherwise. -/
def setChannel (channels : Channels) (cid : String) (cfg : ChannelConfig) :
    Channels :=
  if channels.any (fun p => p.1 == cid) then
    channels.map (fun p => if p.1 == cid then (cid, cfg) else p)
  else channels ++ [(cid, cfg)]

/-- bot.py lines 292-305: validation of the base interval, in hours.  `none`
models the re-prompt branch (`base_hours <= 0`; a non-numeric message is a
rejected parse upstream of this value).  On acceptance the result is the
sub-hour warning flag together with `temp_base_seconds`. -/
def add_channel_receive_schedule_base (base_hours : ℚ) : Option (Bool × ℚ) :=
  if base_hours ≤ 0 then none
  else some (decide (base_hours < 1), base_hours * 3600)

/-- The three `temp_` keys collected by the `/addchannel` dialog before its
final step. -/
structure PendingSetup where
  temp_channel_name : String
  temp_channel_topic : String
  temp_base_seconds : ℚ
  deriving DecidableEq

/-- bot.py lines 307-328: final step of `/addchannel`.  `none` models the
re-prompt on a negative jitter: the handler returns before touching
`channels` or the job queue.  On acceptance the record is written and the
first job is armed. -/
def add_channel_receive_schedule_random (q : JobQueue) (channels : Channels)
    (chat_id : Int) (pending : PendingSetup) (random_hours : ℚ) :
    Option (JobQueue × Channels) :=
  if random_hours < 0 then none
  else
    let random_seconds := random_hours * 3600
    some (schedule_first_job_for_channel q chat_id pending.temp_channel_name
            pending.temp_channel_topic pending.temp_base_seconds random_seconds,
          setChannel channels pending.temp_channel_name
            ⟨pending.temp_channel_topic, pending.temp_base_seconds, random_seconds⟩)

/-- bot.py lines 368-378: final step of `/edittopic`; `Except.error` models
the KeyError path.  The record keeps its cadence, takes the new topic, and
the job is re-armed through the same first-arming path. -/
def edittopic_receive_topic (q : JobQueue) (channels : Channels) (chat_id : Int)
    (channel_id new_topic : String) : Except String (JobQueue × Channels) :=
  match lookupChannel channels channel_id with
  | none => Except.error "KeyError"
  | some config =>
      Except.ok (schedule_first_job_for_channel q chat_id channel_id new_topic
                   config.base_seconds config.random_seconds,
                 setChannel channels channel_id
                   ⟨new_topic, config.base_seconds, config.random_seconds⟩)

/-- Result of the `/removechannel` callback. -/
structure RemoveResult where
  queue : JobQueue
  channels : Channels
  job_removed : Bool
  record_existed : Bool
  deriving DecidableEq

/-- bot.py lines 339-350: cancel the job under the key, then delete the
record if present; `record_existed` reflects which confirmation message the
tenant sees. -/
def remove_channel_callback (q : JobQueue) (channels : Channels) (chat_id : Int)
    (channel_to_remove : String) : RemoveResult :=
  let res := remove_job_if_exists (job_name_for chat_id channel_to_remove) q
  if channels.any (fun p => p.1 == channel_to_remove) then
    ⟨res.2, channels.filter (fun p => !(p.1 == channel_to_remove)), res.1, true⟩
  else
    ⟨res.2, channels, res.1, false⟩

/-- The modules imported at the top of bot.py (lines 2-23); `copy` is not
among them. -/
def imported_modules : List String :=
  ["os", "logging", "random", "asyncio", "pickle", "collections", "dotenv",
   "pymongo", "telegram", "telegram.ext", "telegram.error",
   "telegram.constants", "google.generativeai"]

/-- bot.py lines 428-440: startup recovery.  The body's first expression is
`copy.deepcopy(application.user_data)`; the name `copy` resolves only if the
`copy` module was imported, otherwise the lookup raises `NameError` before
any job is rescheduled.  When the name resolves, every persisted channel of
every tenant is re-armed through `schedule_first_job_for_channel`. -/
def post_init (user_data : List (Int × Channels)) : Except String JobQueue :=
  if imported_modules.contains "copy" then
    Except.ok (user_data.foldl
      (fun q entry => entry.2.foldl
        (fun q2 c => schedule_first_job_for_channel q2 entry.1 c.1
           c.2.topic c.2.base_seconds c.2.random_seconds) q) [])
  else Except.error "NameError: name copy is not defined"

/-! ### Helper lemmas -/

theorem get_jobs_by_name_append (q q' : JobQueue) (n : String) :
    get_jobs_by_name (q ++ q') n = get_jobs_by_name q n ++ get_jobs_by_name q' n := by
  simp [get_jobs_by_name, List.filter_append]

theorem get_jobs_by_name_remove (n : String) (q : JobQueue) :
    get_jobs_by_name (remove_job_if_exists n q).2 n = [] := by
  unfold remove_job_if_exists
  by_cases h : (get_jobs_by_name q n).isEmpty
  · simpa [h] using List.isEmpty_iff.mp h
  · rw [if_neg h]
    unfold get_jobs_by_name
    rw [List.filter_filter]
    apply List.filter_eq_nil_iff.mpr
    intro j _
    cases hj : j.name == n <;> simp [hj]

theorem get_jobs_schedule_first (q : JobQueue) (chat : Int) (ch t : String)
    (b r : ℚ) :
    get_jobs_by_name (schedule_first_job_for_channel q chat ch t b r)
        (job_name_for chat ch)
      = [⟨job_name_for chat ch, 10, ⟨ch, t, b, r⟩, chat⟩] := by
  unfold schedule_first_job_for_channel run_once
  rw [get_jobs_by_name_append, get_jobs_by_name_remove]
  simp [get_jobs_by_name]

theorem name_not_in_remove (j : Job) (n : String) (q : JobQueue)
    (hmem : j ∈ (remove_job_if_exists n q).2) (hname : j.name = n) : False := by
  have h : j ∈ get_jobs_by_name (remove_job_if_exists n q).2 n := by
    simp [get_jobs_by_name, List.mem_filter, hmem, hname]
  rw [get_jobs_by_name_remove] at h
  exact (List.not_mem_nil j) h

theorem lookupChannel_filter_self (channels : Channels) (cid : String) :
    lookupChannel (channels.filter (fun p => !(p.1 == cid))) cid = none := by
  induction channels with
  | nil => rfl
  | cons p ps ih =>
      by_cases h : p.1 == cid
      · simpa [List.filter, h] using ih
      · simp [List.filter, h, lookupChannel, List.find?]

theorem lookup_isSome_eq_any (channels : Channels) (cid : String) :
    (lookupChannel channels cid).isSome = channels.any (fun p => p.1 == cid) := by
  induction channels with
  | nil => rfl
  | cons p ps ih =>
      by_cases h : p.1 == cid
      · simp [lookupChannel, List.find?, h, List.any_cons]
      · simp [lookupChannel, List.find?, h, List.any_cons] at ih ⊢
        exact ih

theorem remove_job_of_absent (n : String) (q : JobQueue)
    (h : get_jobs_by_name q n = []) : remove_job_if_exists n q = (false, q) := by
  unfold remove_job_if_exists
  simp [h]

/-! ### Claim theorems -/

/-- C1 (counterexample): for the valid schedule record `base = 1`,
`jitter = 0` and sampled jitter `u = 0`, the computed next-run delay is
`max 60 1 = 60`, which is not `≤ base + jitter = 1`; so the delay does not
lie in the claimed interval `[max(60, base - jitter), base + jitter]`. -/
theorem C1_small_interval_counterexample :
    (0 : ℚ) < 1 ∧ (0 : ℚ) ≤ 0 ∧ -(0 : ℚ) ≤ (0 : ℚ) ∧ (0 : ℚ) ≤ 0 ∧
    ¬ next_run_time (jittered_delay 1 0) ≤ 1 + 0 := by
  norm_num [next_run_time, jittered_delay]

/-- C1 (amended): for every valid schedule record (`base > 0`,
`jitter ≥ 0`) and every sampled jitter value `u ∈ [-jitter, jitter]`, the
next-run delay computed at bot.py lines 198-199 lies in
`[max(60, base - jitter), max(60, base + jitter)]`; the upper bound carries
the same 60-second floor as the lower one, because the clamp `max(60, ...)`
can raise a small sampled delay above `base + jitter`. -/
theorem C1_next_delay_bounds (base jitter u : ℚ) (hb : 0 < base)
    (hj : 0 ≤ jitter) (h1 : -jitter ≤ u) (h2 : u ≤ jitter) :
    max 60 (base - jitter) ≤ next_run_time (jittered_delay base u) ∧
    next_run_time (jittered_delay base u) ≤ max 60 (base + jitter) := by
  unfold next_run_time jittered_delay
  exact ⟨max_le_max le_rfl (by linarith), max_le_max le_rfl (by linarith)⟩

/-- Witness for C1: the end-to-end cadence `base = 28800`, `jitter = 3600`
at sample `u = 0`. -/
theorem C1_next_delay_bounds_witness :
    max 60 ((28800 : ℚ) - 3600) ≤ next_run_time (jittered_delay 28800 0) ∧
    next_run_time (jittered_delay 28800 0) ≤ max 60 ((28800 : ℚ) + 3600) :=
  C1_next_delay_bounds 28800 3600 0 (by norm_num) (by norm_num) (by norm_num)
    (by norm_num)

/-- C2: arming twice in succession for the same `(tenant, channel)` key
leaves exactly one armed timer — the second one — and the first armed timer
is gone from the queue, so it can never fire.  Every arming path
(creation, edit, recovery) goes through `schedule_first_job_for_channel`,
which cancels the key before installing the new timer. -/
theorem C2_single_timer_per_key (q : JobQueue) (chat : Int) (ch t1 t2 : String)
    (b1 r1 b2 r2 : ℚ) (hne : t1 ≠ t2) :
    get_jobs_by_name
        (schedule_first_job_for_channel
          (schedule_first_job_for_channel q chat ch t1 b1 r1) chat ch t2 b2 r2)
        (job_name_for chat ch)
      = [⟨job_name_for chat ch, 10, ⟨ch, t2, b2, r2⟩, chat⟩] ∧
    (⟨job_name_for chat ch, 10, ⟨ch, t1, b1, r1⟩, chat⟩ : Job) ∉
        schedule_first_job_for_channel
          (schedule_first_job_for_channel q chat ch t1 b1 r1) chat ch t2 b2 r2 := by
  refine ⟨get_jobs_schedule_first _ _ _ _ _ _, ?_⟩
  intro hmem
  unfold schedule_first_job_for_channel run_once at hmem
  rcases List.mem_append.mp hmem with hmem' | hmem'
  · exact name_not_in_remove _ _ _ hmem' rfl
  · have := List.mem_singleton.mp hmem'
    exact hne (congrArg (fun j => j.data.topic) this)

/-- Witness for C2: two concrete armings for tenant 7 and channel
`@news` with different topics. -/
theorem C2_single_timer_per_key_witness :
    get_jobs_by_name
        (schedule_first_job_for_channel
          (schedule_first_job_for_channel [] 7 "@news" "a" 1 2) 7 "@news" "b" 3 4)
        (job_name_for 7 "@news")
      = [⟨job_name_for 7 "@news", 10, ⟨"@news", "b", 3, 4⟩, 7⟩] ∧
    (⟨job_name_for 7 "@news", 10, ⟨"@news", "a", 1, 2⟩, 7⟩ : Job) ∉
        schedule_first_job_for_channel
          (schedule_first_job_for_channel [] 7 "@news" "a" 1 2) 7 "@news" "b" 3 4 :=
  C2_single_timer_per_key [] 7 "@news" "a" "b" 1 2 3 4 (by decide)

/-- C3: when the single `send_message` of a fire cycle fails with a
`TelegramError`/`BadRequest` (the permanent classification: lost posting
permission, deleted channel), the record for the channel is gone from the
tenant state, no job under the key remains armed, exactly one notification
is sent to the tenant chat, and nothing was delivered to the channel —
the job is never retried. -/
theorem C3_permanent_failure_teardown (j : Job) (q : JobQueue)
    (channels : Channels) (gen : GenOutcome) (transient : Bool)
    (reason : String) (u : ℚ) :
    lookupChannel
        (post_to_channel j q channels gen
          (SendOutcome.telegramError transient reason) u).channels
        j.data.channel_id = none ∧
    get_jobs_by_name
        (post_to_channel j q channels gen
          (SendOutcome.telegramError transient reason) u).queue j.name = [] ∧
    (post_to_channel j q channels gen
        (SendOutcome.telegramError transient reason) u).notifications
      = [(j.chat_id, failure_notice j.data.channel_id reason)] ∧
    (post_to_channel j q channels gen
        (SendOutcome.telegramError transient reason) u).sent = [] := by
  refine ⟨?_, ?_, rfl, rfl⟩
  · exact lookupChannel_filter_self channels j.data.channel_id
  · exact get_jobs_by_name_remove j.name q

/-- C5 (code bug): for every persisted tenant state, startup recovery fails
with a `NameError` before re-arming anything, because bot.py line 431 uses
`copy.deepcopy` while the `copy` module is never imported. -/
theorem C5_post_init_name_error (user_data : List (Int × Channels)) :
    post_init user_data = Except.error "NameError: name copy is not defined" :=
  rfl

/-- C4 (counterexample): a fire cycle whose delivery fails with a transient,
recoverable transport error (`transient = true`, reason `Timed out`) does not
complete as in the success path: the record is deleted, no new timer is
armed, and a notification is emitted — bot.py line 187 catches every
`TelegramError` alike and takes the teardown path. -/
theorem C4_transient_transport_counterexample :
    (post_to_channel
        ⟨job_name_for 7 "@news", 10, ⟨"@news", "space", 28800, 3600⟩, 7⟩
        [] [("@news", ⟨"space", 28800, 3600⟩)]
        (Except.ok "text") (SendOutcome.telegramError true "Timed out")
        0).channels = [] ∧
    (post_to_channel
        ⟨job_name_for 7 "@news", 10, ⟨"@news", "space", 28800, 3600⟩, 7⟩
        [] [("@news", ⟨"space", 28800, 3600⟩)]
        (Except.ok "text") (SendOutcome.telegramError true "Timed out")
        0).queue = [] ∧
    (post_to_channel
        ⟨job_name_for 7 "@news", 10, ⟨"@news", "space", 28800, 3600⟩, 7⟩
        [] [("@news", ⟨"space", 28800, 3600⟩)]
        (Except.ok "text") (SendOutcome.telegramError true "Timed out")
        0).notifications.length = 1 :=
  ⟨rfl, rfl, rfl⟩

/-- C4 (amended): when the only delivery failure of a fire cycle is a
content-generator error — the fallback apology text is produced and the
transport send succeeds — the cycle completes as in the success path: the
record remains present and unchanged, no notification is emitted, the
fallback text is the delivered post body, and a new timer is armed under the
same key with the clamped jittered delay, which lies in
`[max(60, base - jitter), max(60, base + jitter)]`.  A transport send error,
transient or not, instead takes the teardown path. -/
theorem C4_generator_fallback_cycle (nm cid topic : String) (w b rs u : ℚ)
    (chat : Int) (q : JobQueue) (channels : Channels) (e : String)
    (htopic : topic ≠ "") (h1 : -rs ≤ u) (h2 : u ≤ rs) :
    (post_to_channel ⟨nm, w, ⟨cid, topic, b, rs⟩, chat⟩ q channels
        (Except.error e) SendOutcome.success u).channels = channels ∧
    (post_to_channel ⟨nm, w, ⟨cid, topic, b, rs⟩, chat⟩ q channels
        (Except.error e) SendOutcome.success u).notifications = [] ∧
    (post_to_channel ⟨nm, w, ⟨cid, topic, b, rs⟩, chat⟩ q channels
        (Except.error e) SendOutcome.success u).sent
      = [(cid, fallback_text topic)] ∧
    get_jobs_by_name
        (post_to_channel ⟨nm, w, ⟨cid, topic, b, rs⟩, chat⟩ q channels
          (Except.error e) SendOutcome.success u).queue nm
      = get_jobs_by_name q nm
        ++ [⟨nm, next_run_time (jittered_delay b u), ⟨cid, topic, b, rs⟩, chat⟩] ∧
    max 60 (b - rs) ≤ next_run_time (jittered_delay b u) ∧
    next_run_time (jittered_delay b u) ≤ max 60 (b + rs) := by
  refine ⟨rfl, rfl, ?_, ?_, ?_, ?_⟩
  · show [(cid, generate_ai_content topic (Except.error e))] = _
    simp [generate_ai_content, htopic]
  · show get_jobs_by_name
        (run_once q ⟨nm, next_run_time (jittered_delay b u),
          ⟨cid, topic, b, rs⟩, chat⟩) nm = _
    rw [run_once, get_jobs_by_name_append]
    simp [get_jobs_by_name]
  · unfold next_run_time jittered_delay
    exact max_le_max le_rfl (by linarith)
  · unfold next_run_time jittered_delay
    exact max_le_max le_rfl (by linarith)

/-- Witness for C4 (amended): a concrete generator failure over the
end-to-end cadence. -/
theorem C4_generator_fallback_cycle_witness :
    (post_to_channel ⟨"post_job_7_news", 10, ⟨"@news", "space", 28800, 3600⟩, 7⟩
        [] [("@news", ⟨"space", 28800, 3600⟩)]
        (Except.error "boom") SendOutcome.success 0).channels
      = [("@news", ⟨"space", 28800, 3600⟩)] ∧
    (post_to_channel ⟨"post_job_7_news", 10, ⟨"@news", "space", 28800, 3600⟩, 7⟩
        [] [("@news", ⟨"space", 28800, 3600⟩)]
        (Except.error "boom") SendOutcome.success 0).notifications = [] ∧
    (post_to_channel ⟨"post_job_7_news", 10, ⟨"@news", "space", 28800, 3600⟩, 7⟩
        [] [("@news", ⟨"space", 28800, 3600⟩)]
        (Except.error "boom") SendOutcome.success 0).sent
      = [("@news", fallback_text "space")] ∧
    get_jobs_by_name
        (post_to_channel ⟨"post_job_7_news", 10, ⟨"@news", "space", 28800, 3600⟩, 7⟩
          [] [("@news", ⟨"space", 28800, 3600⟩)]
          (Except.error "boom") SendOutcome.success 0).queue "post_job_7_news"
      = get_jobs_by_name [] "post_job_7_news"
        ++ [⟨"post_job_7_news", next_run_time (jittered_delay 28800 0),
            ⟨"@news", "space", 28800, 3600⟩, 7⟩] ∧
    max 60 ((28800 : ℚ) - 3600) ≤ next_run_time (jittered_delay 28800 0) ∧
    next_run_time (jittered_delay 28800 0) ≤ max 60 ((28800 : ℚ) + 3600) :=
  C4_generator_fallback_cycle "post_job_7_news" "@news" "space" 10 28800 3600 0
    7 [] [("@news", ⟨"space", 28800, 3600⟩)] "boom" (by decide) (by norm_num)
    (by norm_num)

/-- C6: both the final step of channel creation and the topic-edit handler
arm the first job through `schedule_first_job_for_channel` with the fixed
warm-up delay `when = 10`, never the computed jittered interval. -/
theorem C6_warmup_delay (q : JobQueue) (channels : Channels) (chat : Int)
    (pending : PendingSetup) (rh : ℚ) (ch t : String) (cfg : ChannelConfig)
    (hrh : 0 ≤ rh) (hc : lookupChannel channels ch = some cfg) :
    (add_channel_receive_schedule_random q channels chat pending rh).map
        (fun res =>
          get_jobs_by_name res.1 (job_name_for chat pending.temp_channel_name))
      = some [⟨job_name_for chat pending.temp_channel_name, 10,
              ⟨pending.temp_channel_name, pending.temp_channel_topic,
               pending.temp_base_seconds, rh * 3600⟩, chat⟩] ∧
    (edittopic_receive_topic q channels chat ch t).toOption.map
        (fun res => get_jobs_by_name res.1 (job_name_for chat ch))
      = some [⟨job_name_for chat ch, 10,
              ⟨ch, t, cfg.base_seconds, cfg.random_seconds⟩, chat⟩] := by
  constructor
  · unfold add_channel_receive_schedule_random
    rw [if_neg (not_lt.mpr hrh)]
    simp [get_jobs_schedule_first]
  · unfold edittopic_receive_topic
    rw [hc]
    simp [Except.toOption, get_jobs_schedule_first]

/-- Witness for C6: a fresh channel `@new` is created and the existing
channel `@old` is edited; both armings carry delay 10. -/
theorem C6_warmup_delay_witness :
    (add_channel_receive_schedule_random [] [("@old", ⟨"old", 3600, 0⟩)] 7
        ⟨"@new", "nt", 7200⟩ 1).map
        (fun res => get_jobs_by_name res.1 (job_name_for 7 "@new"))
      = some [⟨job_name_for 7 "@new", 10, ⟨"@new", "nt", 7200, 1 * 3600⟩, 7⟩] ∧
    (edittopic_receive_topic [] [("@old", ⟨"old", 3600, 0⟩)] 7 "@old"
        "edited").toOption.map
        (fun res => get_jobs_by_name res.1 (job_name_for 7 "@old"))
      = some [⟨job_name_for 7 "@old", 10, ⟨"@old", "edited", 3600, 0⟩, 7⟩] :=
  C6_warmup_delay [] [("@old", ⟨"old", 3600, 0⟩)] 7 ⟨"@new", "nt", 7200⟩ 1
    "@old" "edited" ⟨"old", 3600, 0⟩ (by norm_num) (by decide)

/-- C7: `/removechannel` cancels the timer under the key and deletes the
record; the branch taken (and the confirmation shown) reflects exactly
whether a record existed; afterwards the record and the timer are gone; and
a second removal for the same key is a no-op that reports no record, removes
no job, and leaves queue and channels untouched. -/
theorem C7_remove_idempotent (q : JobQueue) (channels : Channels) (chat : Int)
    (ch : String) :
    (remove_channel_callback q channels chat ch).record_existed
      = (lookupChannel channels ch).isSome ∧
    lookupChannel (remove_channel_callback q channels chat ch).channels ch
      = none ∧
    get_jobs_by_name (remove_channel_callback q channels chat ch).queue
        (job_name_for chat ch) = [] ∧
    remove_channel_callback (remove_channel_callback q channels chat ch).queue
        (remove_channel_callback q channels chat ch).channels chat ch
      = ⟨(remove_channel_callback q channels chat ch).queue,
         (remove_channel_callback q channels chat ch).channels, false, false⟩ := by
  have h3 := get_jobs_by_name_remove (job_name_for chat ch) q
  by_cases h : channels.any (fun p => p.1 == ch)
  · have hr1 : remove_channel_callback q channels chat ch
        = ⟨(remove_job_if_exists (job_name_for chat ch) q).2,
           channels.filter (fun p => !(p.1 == ch)),
           (remove_job_if_exists (job_name_for chat ch) q).1, true⟩ := by
      unfold remove_channel_callback
      rw [if_pos h]
    have hany2 : (channels.filter (fun p => !(p.1 == ch))).any
        (fun p => p.1 == ch) = false := by
      have hh := lookup_isSome_eq_any (channels.filter (fun p => !(p.1 == ch))) ch
      rw [lookupChannel_filter_self] at hh
      exact hh.symm
    rw [hr1]
    refine ⟨?_, lookupChannel_filter_self channels ch, h3, ?_⟩
    · rw [lookup_isSome_eq_any, h]
    · unfold remove_channel_callback
      rw [if_neg (by simp [hany2]), remove_job_of_absent _ _ h3]
  · have hfalse : channels.any (fun p => p.1 == ch) = false := by
      cases hb : channels.any (fun p => p.1 == ch) with
      | false => rfl
      | true => exact absurd hb h
    have hr1 : remove_channel_callback q channels chat ch
        = ⟨(remove_job_if_exists (job_name_for chat ch) q).2, channels,
           (remove_job_if_exists (job_name_for chat ch) q).1, false⟩ := by
      unfold remove_channel_callback
      rw [if_neg h]
    have hiso := lookup_isSome_eq_any channels ch
    rw [hfalse] at hiso
    have hnone : lookupChannel channels ch = none := by
      cases ho : lookupChannel channels ch with
      | none => rfl
      | some v => rw [ho] at hiso; simp at hiso
    rw [hr1]
    refine ⟨by rw [hnone]; rfl, hnone, h3, ?_⟩
    · unfold remove_channel_callback
      rw [if_neg h, remove_job_of_absent _ _ h3]

/-- C8: the `/addchannel` dialog accepts a base interval exactly when it is
positive and a jitter exactly when it is non-negative; a jitter larger than
the base is accepted (nothing compares the two); a rejected jitter mutates
neither the queue nor the channels map (the handler returns `none` before
any state is touched); and the 60-second floor keeps any sampled delay,
however negative, at or above 60. -/
theorem C8_validation (bh rh u : ℚ) (q : JobQueue) (channels : Channels)
    (chat : Int) (pending : PendingSetup) :
    ((add_channel_receive_schedule_base bh).isSome ↔ 0 < bh) ∧
    ((add_channel_receive_schedule_random q channels chat pending rh).isSome
      ↔ 0 ≤ rh) ∧
    (rh < 0 → add_channel_receive_schedule_random q channels chat pending rh
      = none) ∧
    60 ≤ next_run_time (jittered_delay pending.temp_base_seconds u) := by
  refine ⟨?_, ?_, ?_, ?_⟩
  · unfold add_channel_receive_schedule_base
    by_cases h : bh ≤ 0
    · simp [h, not_lt.mpr h]
    · simp [h, not_le.mp h]
  · unfold add_channel_receive_schedule_random
    by_cases h : rh < 0
    · simp [h, not_le.mpr h]
    · simp [h, not_lt.mp h]
  · intro h
    unfold add_channel_receive_schedule_random
    rw [if_pos h]
  · unfold next_run_time
    exact le_max_left _ _

/-- Witness for C8: base 1 hour with jitter 2 hours — jitter exceeds the
base and is accepted — and a maximally negative sample still floors at 60. -/
theorem C8_validation_witness :
    ((add_channel_receive_schedule_base 1).isSome ↔ (0 : ℚ) < 1) ∧
    ((add_channel_receive_schedule_random [] [] 7 ⟨"@c", "t", 3600⟩ 2).isSome
      ↔ (0 : ℚ) ≤ 2) ∧
    ((2 : ℚ) < 0 → add_channel_receive_schedule_random [] [] 7 ⟨"@c", "t", 3600⟩ 2
      = none) ∧
    60 ≤ next_run_time (jittered_delay (PendingSetup.mk "@c" "t" 3600).temp_base_seconds (-7200)) :=
  C8_validation 1 2 (-7200) [] [] 7 ⟨"@c", "t", 3600⟩

/-- C9: content generation is total at the scheduler boundary: an empty
topic yields the fixed error string independently of the generator outcome
(the generator is not consulted), a generator exception on a non-empty topic
yields the fallback apology text, and in a fire cycle that fallback text is
exactly the post body delivered to the channel. -/
theorem C9_generator_totality (topic e g nm cid : String) (w b rs u : ℚ)
    (chat : Int) (q : JobQueue) (channels : Channels) (h : topic ≠ "") :
    generate_ai_content "" (Except.error e) = empty_topic_text ∧
    generate_ai_content "" (Except.ok g) = empty_topic_text ∧
    generate_ai_content topic (Except.error e) = fallback_text topic ∧
    (post_to_channel ⟨nm, w, ⟨cid, topic, b, rs⟩, chat⟩ q channels
        (Except.error e) SendOutcome.success u).sent
      = [(cid, fallback_text topic)] := by
  refine ⟨rfl, rfl, ?_, ?_⟩
  · simp [generate_ai_content, h]
  · show [(cid, generate_ai_content topic (Except.error e))] = _
    simp [generate_ai_content, h]

/-- Witness for C9: a concrete generator failure on topic `space`. -/
theorem C9_generator_totality_witness :
    generate_ai_content "" (Except.error "boom") = empty_topic_text ∧
    generate_ai_content "" (Except.ok "txt") = empty_topic_text ∧
    generate_ai_content "space" (Except.error "boom") = fallback_text "space" ∧
    (post_to_channel ⟨"post_job_7_c", 10, ⟨"@c", "space", 3600, 0⟩, 7⟩ [] []
        (Except.error "boom") SendOutcome.success 0).sent
      = [("@c", fallback_text "space")] :=
  C9_generator_totality "space" "boom" "txt" "post_job_7_c" "@c" 10 3600 0 0 7
    [] [] (by decide)

/-- C10: the job key strips every `@` from the channel id before joining it
with the tenant chat id, so it is deterministic but not injective: for the
same tenant, `@news` and `news` are distinct channel identifiers with the
same key, and arming the second evicts the timer armed for the first — they
share one timer slot. -/
theorem C10_job_key_collision (q : JobQueue) (chat : Int) (t1 t2 : String)
    (b1 r1 b2 r2 : ℚ) :
    job_name_for chat "@news" = job_name_for chat "news" ∧
    ("@news" : String) ≠ "news" ∧
    get_jobs_by_name
        (schedule_first_job_for_channel
          (schedule_first_job_for_channel q chat "@news" t1 b1 r1)
          chat "news" t2 b2 r2)
        (job_name_for chat "@news")
      = [⟨job_name_for chat "news", 10, ⟨"news", t2, b2, r2⟩, chat⟩] := by
  have hs : stripAt "@news" = stripAt "news" := by decide
  have hn : job_name_for chat "@news" = job_name_for chat "news" := by
    unfold job_name_for
    rw [hs]
  exact ⟨hn, by decide, by rw [hn]; exact get_jobs_schedule_first _ _ _ _ _ _⟩

end ChannelBot
